import Mathlib

/-!
Verification of the leonardo-jr-api device provisioning and event-ingestion
core: token derivation (SHA-256 based), the geolocation mismatch policy,
location-history versioning, device registration, and event ingestion.

Modelling conventions. Machine integers from the Python sources are modelled
as `Nat` with explicit reduction modulo 2^32 where overflow matters. Float
values are modelled as real numbers (`ℝ`) where trigonometry is involved and
as rationals (`ℚ`) elsewhere. Endpoints that can raise `HTTPException` return
`Except Err _` together with the resulting database state; the database is
modelled as explicit lists of rows threaded through each handler in the order
the source touches them. External collaborators (the ip-api.com lookup, the
random token generator, the request clock and client IP) are passed in as
oracle parameters, mirroring the source's call boundaries.
-/

namespace LeonardoJr

/-! ### SHA-256

Modelled from the spec: `hashlib.sha256(...).hexdigest()` (the Python standard
library, FIPS 180-4), which both `device/scripts/generate_qr.py` and
`leonardo_api/services/device_service.py` call for token derivation. Strings
are converted to bytes via their character codes, which agrees with Python's
`str.encode()` on ASCII input (device ids and secrets in this system are
ASCII). Words are `Nat` reduced modulo 2^32. -/

/-- Reduce a natural number modulo 2^32, the word size of SHA-256. -/
def w32 (n : Nat) : Nat := n % 4294967296

/-- Rotate a 32-bit word right by `k` bits. -/
def rotr32 (x k : Nat) : Nat := w32 ((x >>> k) ||| (x <<< (32 - k)))

/-- SHA-256 Ch function. -/
def shaCh (x y z : Nat) : Nat := (x &&& y) ^^^ ((x ^^^ 4294967295) &&& z)

/-- SHA-256 Maj function. -/
def shaMaj (x y z : Nat) : Nat := (x &&& y) ^^^ (x &&& z) ^^^ (y &&& z)

/-- SHA-256 Σ₀. -/
def bigSigma0 (x : Nat) : Nat := rotr32 x 2 ^^^ rotr32 x 13 ^^^ rotr32 x 22

/-- SHA-256 Σ₁. -/
def bigSigma1 (x : Nat) : Nat := rotr32 x 6 ^^^ rotr32 x 11 ^^^ rotr32 x 25

/-- SHA-256 σ₀. -/
def smallSigma0 (x : Nat) : Nat := rotr32 x 7 ^^^ rotr32 x 18 ^^^ (x >>> 3)

/-- SHA-256 σ₁. -/
def smallSigma1 (x : Nat) : Nat := rotr32 x 17 ^^^ rotr32 x 19 ^^^ (x >>> 10)

/-- The 64 round constants of FIPS 180-4, written in decimal. -/
def shaK : List Nat :=
  [1116352408, 1899447441, 3049323471, 3921009573, 961987163,
   1508970993, 2453635748, 2870763221, 3624381080, 310598401,
   607225278, 1426881987, 1925078388, 2162078206, 2614888103,
   3248222580, 3835390401, 4022224774, 264347078, 604807628,
   770255983, 1249150122, 1555081692, 1996064986, 2554220882,
   2821834349, 2952996808, 3210313671, 3336571891, 3584528711,
   113926993, 338241895, 666307205, 773529912, 1294757372,
   1396182291, 1695183700, 1986661051, 2177026350, 2456956037,
   2730485921, 2820302411, 3259730800, 3345764771, 3516065817,
   3600352804, 4094571909, 275423344, 430227734, 506948616,
   659060556, 883997877, 958139571, 1322822218, 1537002063,
   1747873779, 1955562222, 2024104815, 2227730452, 2361852424,
   2428436474, 2756734187, 3204031479, 3329325298]

/-- The initial hash value of FIPS 180-4, written in decimal. -/
def shaH0 : List Nat :=
  [1779033703, 3144134277, 1013904242, 2773480762,
   1359893119, 2600822924, 528734635, 1541459225]

/-- Big-endian 8-byte encoding of a natural number (the message bit length). -/
def be64 (n : Nat) : List Nat :=
  [(n >>> 56) % 256, (n >>> 48) % 256, (n >>> 40) % 256, (n >>> 32) % 256,
   (n >>> 24) % 256, (n >>> 16) % 256, (n >>> 8) % 256, n % 256]

/-- SHA-256 padding: append `0x80`, zero bytes to reach 56 mod 64, then the
bit length as a big-endian 64-bit integer. -/
def padMessage (msg : List Nat) : List Nat :=
  let z := (119 - msg.length % 64) % 64
  msg ++ [128] ++ List.replicate z 0 ++ be64 (8 * msg.length)

/-- Group a byte list into big-endian 32-bit words. -/
def bytesToWords : List Nat → List Nat
  | b0 :: b1 :: b2 :: b3 :: rest =>
      (((b0 * 256 + b1) * 256 + b2) * 256 + b3) :: bytesToWords rest
  | _ => []

/-- Split a word list into `n` successive blocks of 16 words. -/
def toBlocksAux : Nat → List Nat → List (List Nat)
  | 0, _ => []
  | n + 1, ws => ws.take 16 :: toBlocksAux n (ws.drop 16)

/-- Split a word list into blocks of 16 words (the padded message is always a
whole number of blocks). -/
def toBlocks (ws : List Nat) : List (List Nat) :=
  toBlocksAux (ws.length / 16) ws

/-- SHA-256 message schedule: extend a 16-word block to 64 words. -/
def schedule (block : List Nat) : Array Nat :=
  (List.range 48).foldl
    (fun (w : Array Nat) i =>
      let t := i + 16
      w.push (w32 (smallSigma1 w[t - 2]! + w[t - 7]! +
        smallSigma0 w[t - 15]! + w[t - 16]!)))
    block.toArray

/-- One SHA-256 compression step over the intermediate hash value. -/
def compressBlock (h : List Nat) (block : List Nat) : List Nat :=
  let w := schedule block
  let st :=
    (List.range 64).foldl
      (fun (st : Nat × Nat × Nat × Nat × Nat × Nat × Nat × Nat) t =>
        let (a, b, c, d, e, f, g, hh) := st
        let t1 := w32 (hh + bigSigma1 e + shaCh e f g + shaK[t]! + w[t]!)
        let t2 := w32 (bigSigma0 a + shaMaj a b c)
        (w32 (t1 + t2), a, b, c, w32 (d + t1), e, f, g))
      (h[0]!, h[1]!, h[2]!, h[3]!, h[4]!, h[5]!, h[6]!, h[7]!)
  let (a, b, c, d, e, f, g, hh) := st
  [w32 (h[0]! + a), w32 (h[1]! + b), w32 (h[2]! + c), w32 (h[3]! + d),
   w32 (h[4]! + e), w32 (h[5]! + f), w32 (h[6]! + g), w32 (h[7]! + hh)]

/-- SHA-256 digest of a byte list, as the eight 32-bit hash words. -/
def sha256Words (msg : List Nat) : List Nat :=
  (toBlocks (bytesToWords (padMessage msg))).foldl compressBlock shaH0

/-- Lowercase hexadecimal digit for a nibble. -/
def hexNibble (n : Nat) : Char :=
  Char.ofNat (if n < 10 then 48 + n else 87 + n)

/-- Lowercase 8-hex-digit rendering of a 32-bit word. -/
def wordToHex (w : Nat) : List Char :=
  [hexNibble ((w >>> 28) % 16), hexNibble ((w >>> 24) % 16),
   hexNibble ((w >>> 20) % 16), hexNibble ((w >>> 16) % 16),
   hexNibble ((w >>> 12) % 16), hexNibble ((w >>> 8) % 16),
   hexNibble ((w >>> 4) % 16), hexNibble (w % 16)]

/-- Bytes of a string, via character codes (equals UTF-8 on ASCII input). -/
def strBytes (s : String) : List Nat := s.data.map Char.toNat

/-- Lowercase hex digest of the SHA-256 of a string:
`hashlib.sha256(s.encode()).hexdigest()`. -/
def sha256hex (s : String) : String :=
  ⟨((sha256Words (strBytes s)).map wordToHex).flatten⟩

/-! ### Configuration (`leonardo_api/config.py`)

Only the settings the verified core reads are modelled. -/

/-- Application settings (the fields read by the verified core). -/
structure Settings where
  FACTORY_SECRET : String
  LOCATION_MISMATCH_THRESHOLD_KM : ℝ

/-- The default `Settings()` values from `config.py`. -/
noncomputable def defaultSettings : Settings :=
  { FACTORY_SECRET := "LEONARDO_JR_2026_SECRET"
    LOCATION_MISMATCH_THRESHOLD_KM := 150.0 }

/-! ### Device-side token derivation (`device/scripts/generate_qr.py`)

The device-side script reads the shared secret from the environment variable
FACTORY_SECRET; the embedding passes that value in as the `factory_secret`
argument. -/

/-- Setup-page base URL baked into `generate_qr.py`. -/
def SETUP_BASE_URL : String := "https://leonardo-jr-api.onrender.com/setup"

/-- Device-side `derive_factory_token`: first 16 hex characters of the SHA-256
of `device_id:secret`. -/
def derive_factory_token (factory_secret : String) (device_id : String) : String :=
  (sha256hex (device_id ++ ":" ++ factory_secret)).take 16

/-- Device-side `derive_factory_token_hash`: first 16 hex characters of the
SHA-256 of the factory token. -/
def derive_factory_token_hash (factory_token : String) : String :=
  (sha256hex factory_token).take 16

/-- Device-side `build_setup_url`: the URL embedded in the QR code, carrying
the device id and the factory token hash. -/
def build_setup_url (factory_secret : String) (device_id : String) : String :=
  let factory_token := derive_factory_token factory_secret device_id
  let fth := derive_factory_token_hash factory_token
  SETUP_BASE_URL ++ "?device_id=" ++ device_id ++ "&fth=" ++ fth

/-! ### Server-side token derivation (`leonardo_api/services/device_service.py`) -/

/-- Server-side `_derive_factory_token`, re-deriving the factory token from
the device id and `settings.FACTORY_SECRET`. -/
def _derive_factory_token (settings : Settings) (device_id : String) : String :=
  (sha256hex (device_id ++ ":" ++ settings.FACTORY_SECRET)).take 16

/-- Server-side `_derive_factory_token_hash`. -/
def _derive_factory_token_hash (factory_token : String) : String :=
  (sha256hex factory_token).take 16

/-- Server-side `verify_factory_token_hash`: constant-time comparison of the
supplied `fth` with the re-derived hash, modelled as Boolean equality. -/
def verify_factory_token_hash (settings : Settings) (device_id : String)
    (fth : String) : Bool :=
  _derive_factory_token_hash (_derive_factory_token settings device_id) == fth

/-- Server-side `_compute_factory_token_hash`: the value stored in the
`devices` table. -/
def _compute_factory_token_hash (settings : Settings) (device_id : String) : String :=
  _derive_factory_token_hash (_derive_factory_token settings device_id)

/-! ### Geolocation and distance (`leonardo_api/services/geolocation_service.py`)

The `get_geolocation` network call (ip-api.com with a 5 s timeout, private
addresses short-circuited to unavailable) is an external collaborator; the
embedding passes its per-IP result in as an oracle `geo : String →
GeolocationResult`, exactly the tuple the dataclass carries. -/

/-- Result of `get_geolocation`: on failure `available = false` and
`region = ""`, `lat = lon = 0.0`. -/
structure GeolocationResult where
  region : String
  lat : ℝ
  lon : ℝ
  available : Bool

/-- Python `math.radians`: degrees to radians. -/
noncomputable def radians (x : ℝ) : ℝ := x * Real.pi / 180

/-- Python `math.atan2 y x` on real arguments. -/
noncomputable def atan2 (y x : ℝ) : ℝ :=
  if 0 < x then Real.arctan (y / x)
  else if x < 0 then
    (if 0 ≤ y then Real.arctan (y / x) + Real.pi else Real.arctan (y / x) - Real.pi)
  else
    (if 0 < y then Real.pi / 2 else if y < 0 then -(Real.pi / 2) else 0)

/-- The `a` intermediate of the haversine formula, as computed in
`haversine_km`. -/
noncomputable def haversineA (lat1 lon1 lat2 lon2 : ℝ) : ℝ :=
  Real.sin (radians (lat2 - lat1) / 2) ^ 2 +
    Real.cos (radians lat1) * Real.cos (radians lat2) *
      Real.sin (radians (lon2 - lon1) / 2) ^ 2

/-- `haversine_km`: great-circle distance in km with Earth radius 6371. -/
noncomputable def haversine_km (lat1 lon1 lat2 lon2 : ℝ) : ℝ :=
  let a := haversineA lat1 lon1 lat2 lon2
  6371.0 * 2 * atan2 (Real.sqrt a) (Real.sqrt (1 - a))

/-- Python `round(x, 3)`, idealised over the reals as rounding to the nearest
multiple of 1/1000. -/
noncomputable def round3 (x : ℝ) : ℝ := (round (x * 1000) : ℝ) / 1000

open Classical in
/-- `check_location_mismatch`: compare the event IP's geolocation against the
registered coordinate. Returns `(location_mismatch, distance_km, region)`. -/
noncomputable def check_location_mismatch (settings : Settings)
    (geo : String → GeolocationResult)
    (registered_lat registered_lon : ℝ) (registered_region : String)
    (event_ip : String) : Bool × Option ℝ × String :=
  let g := geo event_ip
  if g.available = false then (false, none, "")
  else
    let distance_km := haversine_km registered_lat registered_lon g.lat g.lon
    let distance_mismatch : Bool :=
      decide (distance_km ≥ settings.LOCATION_MISMATCH_THRESHOLD_KM)
    let region_mismatch : Bool :=
      !registered_region.isEmpty && !g.region.isEmpty &&
        registered_region != g.region
    (distance_mismatch || region_mismatch, some (round3 distance_km), g.region)

/-! ### Location history (`leonardo_api/services/location_service.py`)

The `location_history` table is a list of rows in insertion order together
with the next autoincrement id; `registered_at` ordering coincides with
insertion order. Numeric columns are rationals (every Python float is a
rational). -/

/-- A `location_history` row. -/
structure LocationRow where
  id : Nat
  device_id : String
  lat : ℚ
  lon : ℚ
  accuracy : Option ℚ
  registered_by : String
  active_flag : Bool
  ip_address : Option String
deriving DecidableEq

/-- The `location_history` table state. -/
structure LocationState where
  rows : List LocationRow
  nextId : Nat
deriving DecidableEq

/-- Threshold above which a mild accuracy warning is produced (m). -/
def _ACCURACY_WARN_M : ℚ := 50

/-- Threshold above which the strong accuracy warning is produced (m). -/
def _ACCURACY_ALERT_M : ℚ := 100

/-- Python's `{q:.0f}` formatting of a nonnegative value: round half to even,
then print the integer. With `f = ⌊q⌋`, the fractional part `q - f` is
compared against 1/2 by cross-multiplication: `q - f < 1/2` iff
`2 * (q.num - f * q.den) < q.den`. -/
def accFormat (q : ℚ) : String :=
  let f := Rat.floor q
  let t := 2 * (q.num - f * (q.den : ℤ))
  let n := if t < (q.den : ℤ) then f else if (q.den : ℤ) < t then f + 1
    else if f % 2 = 0 then f else f + 1
  toString n

/-- `_build_accuracy_warning`: advisory message depending on GPS accuracy. -/
def _build_accuracy_warning (accuracy : Option ℚ) : Option String :=
  match accuracy with
  | none => none
  | some a =>
    if a > _ACCURACY_ALERT_M then
      some ("GPS 精度が低い状態です（" ++ accFormat a ++
        "m）。より精度の高い場所で再取得することを推奨します。")
    else if a > _ACCURACY_WARN_M then
      some ("GPS 精度が " ++ accFormat a ++ "m です。50m 以下での登録を推奨します。")
    else none

/-- `register_location`: in one transaction, deactivate every active row of
the device, then insert the new row with `active_flag = true`. Returns the
new state, the new row and the accuracy warning. -/
def register_location (s : LocationState) (device_id : String)
    (lat lon : ℚ) (accuracy : Option ℚ) (user_id : String)
    (ip_address : Option String) : LocationState × LocationRow × Option String :=
  let warning := _build_accuracy_warning accuracy
  let deactivated := s.rows.map (fun r =>
    if r.device_id == device_id && r.active_flag then
      { r with active_flag := false }
    else r)
  let new_location : LocationRow :=
    { id := s.nextId, device_id := device_id, lat := lat, lon := lon
      accuracy := accuracy, registered_by := user_id, active_flag := true
      ip_address := ip_address }
  ({ rows := deactivated ++ [new_location], nextId := s.nextId + 1 },
    new_location, warning)

/-- `get_active_location`: the row with `active_flag = true` for the device,
latest `registered_at` first (insertion order in this model). -/
def get_active_location (s : LocationState) (device_id : String) :
    Option LocationRow :=
  (s.rows.filter (fun r => r.device_id == device_id && r.active_flag)).getLast?

/-! ### Devices and registration (`leonardo_api/services/device_service.py`,
`leonardo_api/routers/device_router.py`)

The `devices` table is a list of rows; `device_id` is the primary key. UUIDs
are opaque strings. `secrets.token_urlsafe(32)` is an external randomness
source; the embedding passes the generated value in as `fresh_api_token`. -/

/-- A `devices` row (the columns the verified core touches). -/
structure Device where
  device_id : String
  factory_token_hash : String
  owner_user_id : Option String
  api_token : Option String
  status : String
  plan_type : String
  notification_target : Option String
  detection_targets : Option String
deriving DecidableEq

/-- An `HTTPException`: status code and detail message. -/
structure Err where
  status_code : Nat
  detail : String
deriving DecidableEq

/-- Error raised by `auth.get_device_by_api_token` when the header is
missing. -/
def headerMissingError : Err := ⟨401, "X-Api-Token ヘッダーが必要です"⟩

/-- Error raised by `auth.get_device_by_api_token` when no device carries the
supplied token. -/
def invalidTokenError : Err := ⟨401, "デバイストークンが無効です"⟩

/-- `auth.get_device_by_api_token`: resolve the `X-Api-Token` header to a
device row, or fail with 401. -/
def get_device_by_api_token (db : List Device) (x_api_token : Option String) :
    Except Err Device :=
  match x_api_token with
  | none => .error headerMissingError
  | some tok =>
    match db.find? (fun d => d.api_token == some tok) with
    | none => .error invalidTokenError
    | some d => .ok d

/-- Service-layer `register_device`: bind the device to the owner, creating
the row on the fly when absent. The `ValueError` raised when the device is
already owned is the `Except.error` case; the database is returned unchanged
there (nothing was written before the raise). -/
def register_device (settings : Settings) (db : List Device)
    (fresh_api_token : String) (device_id : String) (owner_user_id : String) :
    Except Unit (Device × List Device) :=
  match db.find? (fun d => d.device_id == device_id) with
  | some device =>
    if device.owner_user_id.isSome then .error ()
    else
      let updated : Device :=
        { device with owner_user_id := some owner_user_id
                      api_token := some fresh_api_token }
      .ok (updated, db.map (fun d =>
        if d.device_id == device_id then updated else d))
  | none =>
    let device : Device :=
      { device_id := device_id
        factory_token_hash := _compute_factory_token_hash settings device_id
        owner_user_id := some owner_user_id
        api_token := some fresh_api_token
        status := "active"
        plan_type := "consumer"
        notification_target := none
        detection_targets := none }
    .ok (device, db ++ [device])

/-- Response body of `POST /devices/{device_id}/register`. -/
structure DeviceRegisterResponse where
  device_id : String
  api_token : Option String
deriving DecidableEq

/-- 400 error of the register endpoint: `fth` verification failed. -/
def fthVerificationError : Err := ⟨400, "デバイス認証に失敗しました（fth が一致しません）"⟩

/-- 409 error of the register endpoint: device already owned. -/
def alreadyRegisteredError : Err :=
  ⟨409, "このデバイスはすでに登録済みです。再登録には既存所有者の認証が必要です。"⟩

/-- `register_device_endpoint`: verify the `fth` query parameter, reject when
the device is already owned, otherwise bind it and issue the api token. An
uncaught service-layer `ValueError` surfaces as a 500 with no write. -/
def register_device_endpoint (settings : Settings) (db : List Device)
    (fresh_api_token : String) (device_id : String) (fth : String)
    (current_user_id : String) :
    Except Err DeviceRegisterResponse × List Device :=
  if verify_factory_token_hash settings device_id fth = false then
    (.error fthVerificationError, db)
  else
    match db.find? (fun d => d.device_id == device_id) with
    | some existing =>
      if existing.owner_user_id.isSome then (.error alreadyRegisteredError, db)
      else
        match register_device settings db fresh_api_token device_id current_user_id with
        | .ok (device, db') =>
          (.ok ⟨device.device_id, device.api_token⟩, db')
        | .error _ => (.error ⟨500, "Internal Server Error"⟩, db)
    | none =>
      match register_device settings db fresh_api_token device_id current_user_id with
      | .ok (device, db') =>
        (.ok ⟨device.device_id, device.api_token⟩, db')
      | .error _ => (.error ⟨500, "Internal Server Error"⟩, db)

/-! ### Event ingestion (`leonardo_api/routers/event_router.py`)

Timestamps are opaque rationals; `datetime.now(timezone.utc)` and
`_get_client_ip` are request-environment oracles passed in as arguments.
Notification dispatch (`notification_service`) is an external best-effort
collaborator with no bearing on the stored state or the response, so it does
not appear in the state transition. -/

/-- A `detection_events` row (the columns the verified core touches). -/
structure DetectionEvent where
  id : Nat
  device_id : String
  detected_at : ℚ
  detection_type : String
  confidence : ℚ
  ip_address : Option String
  ip_geolocation_region : Option String
  distance_from_registered_km : Option ℝ
  location_mismatch : Bool

/-- Request body of `POST /devices/{device_id}/event`. -/
structure DetectionEventRequest where
  detection_type : String
  confidence : ℚ
  image_base64 : Option String
  timestamp : Option ℚ

/-- Response body of `POST /devices/{device_id}/event`. -/
structure DetectionEventResponse where
  event_id : Nat
  location_mismatch : Bool
deriving DecidableEq

/-- One item of the offline upload body (`OfflineEventItem`); `timestamp` is
required by the schema. -/
structure OfflineEventItem where
  detection_type : String
  confidence : ℚ
  timestamp : ℚ
  image_base64 : Option String

/-- Response body of `POST /devices/{device_id}/upload-logs`. -/
structure UploadLogsResponse where
  inserted : Nat
  message : String
deriving DecidableEq

/-- Database state seen by the event router: the location-history table and
the `detection_events` table with its autoincrement counter. -/
structure EventDB where
  locations : LocationState
  events : List DetectionEvent
  nextEventId : Nat

/-- 403 error of the event endpoint: path id and token device disagree. -/
def deviceTokenMismatchError : Err := ⟨403, "デバイス ID とトークンが一致しません"⟩

/-- 503 error shared by the event and upload-logs endpoints: device
suspended. -/
def deviceSuspendedError : Err := ⟨503, "このデバイスは停止中です"⟩

/-- 403 error of the status and upload-logs endpoints. -/
def invalidAccessError : Err := ⟨403, "不正なアクセスです"⟩

open Classical in
/-- `receive_event`: authenticate path vs token, gate on suspension, insert
the event, evaluate the location mismatch (with an empty registered region),
amend the row, and answer with the event id and the mismatch flag. -/
noncomputable def receive_event (settings : Settings)
    (geo : String → GeolocationResult) (now : ℚ) (client_ip : Option String)
    (db : EventDB) (device : Device) (device_id : String)
    (body : DetectionEventRequest) :
    Except Err DetectionEventResponse × EventDB :=
  if device.device_id ≠ device_id then (.error deviceTokenMismatchError, db)
  else if device.status == "suspended" then (.error deviceSuspendedError, db)
  else
    let detected_at := body.timestamp.getD now
    let ip := client_ip
    let event0 : DetectionEvent :=
      { id := db.nextEventId, device_id := device_id
        detected_at := detected_at, detection_type := body.detection_type
        confidence := body.confidence, ip_address := ip
        ip_geolocation_region := none, distance_from_registered_km := none
        location_mismatch := false }
    let active_loc := get_active_location db.locations device_id
    let mdr : Bool × Option ℝ × String :=
      match active_loc, ip with
      | some loc, some ipv =>
        check_location_mismatch settings geo (loc.lat : ℝ) (loc.lon : ℝ) "" ipv
      | _, _ => (false, none, "")
    let mismatch := mdr.1
    let distance_km := mdr.2.1
    let event_region := mdr.2.2
    let event : DetectionEvent :=
      { event0 with
        ip_geolocation_region := if event_region = "" then none else some event_region
        distance_from_registered_km := distance_km
        location_mismatch := mismatch }
    (.ok ⟨event.id, mismatch⟩,
      { db with events := db.events ++ [event], nextEventId := db.nextEventId + 1 })

/-- `upload_logs`: authenticate path vs token, gate on suspension, then
insert every offline item in one transaction with `location_mismatch` forced
false; geolocation is never consulted. -/
def upload_logs (db : EventDB) (device : Device) (device_id : String)
    (body : List OfflineEventItem) : Except Err UploadLogsResponse × EventDB :=
  if device.device_id ≠ device_id then (.error invalidAccessError, db)
  else if device.status == "suspended" then (.error deviceSuspendedError, db)
  else
    let events := body.enum.map (fun p : Nat × OfflineEventItem =>
      { id := db.nextEventId + p.1, device_id := device_id
        detected_at := p.2.timestamp, detection_type := p.2.detection_type
        confidence := p.2.confidence, ip_address := none
        ip_geolocation_region := none, distance_from_registered_km := none
        location_mismatch := false : DetectionEvent })
    (.ok ⟨events.length, "ログアップロード完了"⟩,
      { db with events := db.events ++ events
                nextEventId := db.nextEventId + events.length })

/-! ### Sequential location registrations

Scaffolding for reasoning about N sequential `register_location` calls for
one device: the argument record of one call, one state step, and the fold of
a call list. -/

/-- The caller-supplied arguments of one `register_location` call. -/
structure RegisterCall where
  lat : ℚ
  lon : ℚ
  accuracy : Option ℚ
  user_id : String
  ip_address : Option String

/-- State transition of a single `register_location` call. -/
def registerStep (device_id : String) (s : LocationState) (c : RegisterCall) :
    LocationState :=
  (register_location s device_id c.lat c.lon c.accuracy c.user_id c.ip_address).1

/-- State after a sequence of `register_location` calls for one device. -/
def registerAll (s : LocationState) (device_id : String)
    (calls : List RegisterCall) : LocationState :=
  calls.foldl (registerStep device_id) s

/-- The active rows of a device, in table order. -/
def activeRows (s : LocationState) (device_id : String) : List LocationRow :=
  s.rows.filter (fun r => r.device_id == device_id && r.active_flag)

/-- The row inserted by a `register_location` call on state `s`. -/
def insertedRow (nextId : Nat) (device_id : String) (c : RegisterCall) :
    LocationRow :=
  ⟨nextId, device_id, c.lat, c.lon, c.accuracy, c.user_id, true, c.ip_address⟩

/-! ## Theorems -/

/-- C8: for every accuracy value supplied to `register_location`, accuracy
≤ 50 yields no warning, 50 < accuracy ≤ 100 yields the mild warning string,
accuracy > 100 yields the stronger warning string, the warning text embeds
the numeric accuracy, and registration never fails due to poor accuracy: the
call inserts the new row and reports the advisory in every case. -/
theorem accuracy_warning_policy (a : ℚ) (s : LocationState) (d : String)
    (lat lon : ℚ) (u : String) (ip : Option String) :
    (a ≤ 50 → _build_accuracy_warning (some a) = none) ∧
    (50 < a → a ≤ 100 → _build_accuracy_warning (some a) =
      some ("GPS 精度が " ++ accFormat a ++ "m です。50m 以下での登録を推奨します。")) ∧
    (100 < a → _build_accuracy_warning (some a) =
      some ("GPS 精度が低い状態です（" ++ accFormat a ++
        "m）。より精度の高い場所で再取得することを推奨します。")) ∧
    (∀ w, _build_accuracy_warning (some a) = some w →
      (accFormat a).data <:+: w.data) ∧
    ((register_location s d lat lon (some a) u ip).2.1 ∈
        (register_location s d lat lon (some a) u ip).1.rows ∧
      (register_location s d lat lon (some a) u ip).2.2 =
        _build_accuracy_warning (some a)) := by
  refine ⟨?_, ?_, ?_, ?_, ?_, rfl⟩
  · intro h
    rw [_build_accuracy_warning, if_neg, if_neg]
    · simp only [_ACCURACY_WARN_M, not_lt]
      exact h
    · simp only [_ACCURACY_ALERT_M, not_lt]
      linarith
  · intro h1 h2
    rw [_build_accuracy_warning, if_neg, if_pos]
    · simpa [_ACCURACY_WARN_M] using h1
    · simp only [_ACCURACY_ALERT_M, not_lt]
      exact h2
  · intro h
    rw [_build_accuracy_warning, if_pos]
    simpa [_ACCURACY_ALERT_M] using h
  · intro w hw
    rw [_build_accuracy_warning] at hw
    split_ifs at hw with h1 h2
    · cases hw
      refine ⟨"GPS 精度が低い状態です（".data,
        "m）。より精度の高い場所で再取得することを推奨します。".data, ?_⟩
      simp [String.data_append]
    · cases hw
      refine ⟨"GPS 精度が ".data, "m です。50m 以下での登録を推奨します。".data, ?_⟩
      simp [String.data_append]
  · simp [register_location]

/-- Witness for C8 at the concrete boundary accuracies 50, 51 and 101. -/
theorem accuracy_warning_policy_witness :
    ((50 : ℚ) ≤ 50 ∧ _build_accuracy_warning (some 50) = none) ∧
    ((50 : ℚ) < 51 ∧ (51 : ℚ) ≤ 100 ∧ _build_accuracy_warning (some 51) =
      some ("GPS 精度が " ++ accFormat 51 ++ "m です。50m 以下での登録を推奨します。")) ∧
    ((100 : ℚ) < 101 ∧ _build_accuracy_warning (some 101) =
      some ("GPS 精度が低い状態です（" ++ accFormat 101 ++
        "m）。より精度の高い場所で再取得することを推奨します。")) :=
  ⟨⟨by decide,
      (accuracy_warning_policy 50 ⟨[], 0⟩ "d" 0 0 "u" none).1 (by decide)⟩,
    ⟨by decide, by decide,
      (accuracy_warning_policy 51 ⟨[], 0⟩ "d" 0 0 "u" none).2.1 (by decide) (by decide)⟩,
    ⟨by decide,
      (accuracy_warning_policy 101 ⟨[], 0⟩ "d" 0 0 "u" none).2.2.1 (by decide)⟩⟩

/-- C1: `check_location_mismatch` returns `(false, none, "")` whenever
geolocation of the event IP is unavailable; otherwise the mismatch flag is
true exactly when the haversine distance reaches the configured threshold or
both region strings are non-empty and disagree; an empty region string on
either side disables the region comparison; the default threshold is
150 km. -/
theorem check_location_mismatch_policy (settings : Settings)
    (geo : String → GeolocationResult) (rlat rlon : ℝ) (rregion : String)
    (ip : String) :
    ((geo ip).available = false →
      check_location_mismatch settings geo rlat rlon rregion ip =
        (false, none, "")) ∧
    ((geo ip).available = true →
      ((check_location_mismatch settings geo rlat rlon rregion ip).1 = true ↔
        (settings.LOCATION_MISMATCH_THRESHOLD_KM ≤
            haversine_km rlat rlon (geo ip).lat (geo ip).lon ∨
          (rregion ≠ "" ∧ (geo ip).region ≠ "" ∧ rregion ≠ (geo ip).region)))) ∧
    ((geo ip).available = true → rregion = "" ∨ (geo ip).region = "" →
      ((check_location_mismatch settings geo rlat rlon rregion ip).1 = true ↔
        settings.LOCATION_MISMATCH_THRESHOLD_KM ≤
          haversine_km rlat rlon (geo ip).lat (geo ip).lon)) ∧
    defaultSettings.LOCATION_MISMATCH_THRESHOLD_KM = 150 := by
  have hemp : ∀ s : String, s.isEmpty = false ↔ ¬s = "" := by
    intro s
    rw [Bool.eq_false_iff]
    exact not_congr (String.isEmpty_iff s)
  refine ⟨?_, ?_, ?_, by norm_num [defaultSettings]⟩
  · intro h
    rw [check_location_mismatch, if_pos h]
  · intro h
    rw [check_location_mismatch, if_neg (by simp [h])]
    simp only [ge_iff_le, Bool.or_eq_true, decide_eq_true_iff, Bool.and_eq_true,
      Bool.not_eq_true', bne_iff_ne, ne_eq, hemp]
    tauto
  · intro h he
    rw [check_location_mismatch, if_neg (by simp [h])]
    simp only [ge_iff_le, Bool.or_eq_true, decide_eq_true_iff, Bool.and_eq_true,
      Bool.not_eq_true', bne_iff_ne, ne_eq, hemp]
    constructor
    · rintro (hd | ⟨⟨h1, h2⟩, _⟩)
      · exact hd
      · rcases he with he | he
        · exact absurd he h1
        · exact absurd he h2
    · exact Or.inl

/-- Witness for C1: an oracle that reports the IP as unavailable makes the
check return `(false, none, "")`. -/
theorem check_location_mismatch_policy_witness :
    ((fun _ : String => (⟨"", 0, 0, false⟩ : GeolocationResult)) "203.0.113.9").available
        = false ∧
    check_location_mismatch ⟨"LEONARDO_JR_2026_SECRET", 150⟩
        (fun _ => ⟨"", 0, 0, false⟩) 36 138 "" "203.0.113.9" = (false, none, "") :=
  ⟨rfl,
    (check_location_mismatch_policy ⟨"LEONARDO_JR_2026_SECRET", 150⟩
      (fun _ => ⟨"", 0, 0, false⟩) 36 138 "" "203.0.113.9").1 rfl⟩

/-- C5: a suspended device is rejected by both the live event endpoint and
the offline batch upload with the 503 suspended-state error, which is
distinct from the 401 authentication failures, and the database state
(in particular the `detection_events` table) is unchanged. -/
theorem suspended_device_rejection (settings : Settings)
    (geo : String → GeolocationResult) (now : ℚ) (client_ip : Option String)
    (db : EventDB) (device : Device) (body : DetectionEventRequest)
    (items : List OfflineEventItem)
    (hsusp : device.status = "suspended") :
    receive_event settings geo now client_ip db device device.device_id body =
      (.error deviceSuspendedError, db) ∧
    upload_logs db device device.device_id items =
      (.error deviceSuspendedError, db) ∧
    deviceSuspendedError.status_code = 503 ∧
    headerMissingError.status_code = 401 ∧
    invalidTokenError.status_code = 401 ∧
    deviceSuspendedError ≠ headerMissingError ∧
    deviceSuspendedError ≠ invalidTokenError := by
  refine ⟨?_, ?_, rfl, rfl, rfl, by decide, by decide⟩
  · rw [receive_event, if_neg (by simp), if_pos (by simp [hsusp])]
  · rw [upload_logs, if_neg (by simp), if_pos (by simp [hsusp])]

/-- Witness for C5: a concrete suspended device is rejected by both
endpoints without touching the empty database. -/
theorem suspended_device_rejection_witness :
    (Device.mk "LJ-A3F8B2C1-7294" "0123456789abcdef" (some "u1") (some "tok1")
        "suspended" "consumer" none none).status = "suspended" ∧
    upload_logs ⟨⟨[], 0⟩, [], 0⟩
        (Device.mk "LJ-A3F8B2C1-7294" "0123456789abcdef" (some "u1") (some "tok1")
          "suspended" "consumer" none none)
        "LJ-A3F8B2C1-7294" [⟨"bear", 9/10, 0, none⟩] =
      (.error deviceSuspendedError, ⟨⟨[], 0⟩, [], 0⟩) :=
  ⟨rfl,
    (suspended_device_rejection ⟨"s", 150⟩ (fun _ => ⟨"", 0, 0, false⟩) 0 none
      ⟨⟨[], 0⟩, [], 0⟩
      (Device.mk "LJ-A3F8B2C1-7294" "0123456789abcdef" (some "u1") (some "tok1")
        "suspended" "consumer" none none)
      ⟨"bear", 9/10, none, none⟩ [⟨"bear", 9/10, 0, none⟩] rfl).2.1⟩

/-- C6: for a non-suspended device and a non-empty list of K well-formed
offline items, `upload_logs` appends exactly K `detection_events` rows in a
single state transition, every inserted row carries `location_mismatch =
false` (no geolocation oracle is even an input of the handler), each row
takes its timestamp, type and confidence from the corresponding item, and
the response reports `inserted = K`. -/
theorem upload_logs_batch_insert (db : EventDB) (device : Device)
    (items : List OfflineEventItem)
    (hsusp : device.status ≠ "suspended") (_hne : items ≠ []) :
    ∃ evs : List DetectionEvent,
      upload_logs db device device.device_id items =
        (.ok ⟨items.length, "ログアップロード完了"⟩,
          ⟨db.locations, db.events ++ evs, db.nextEventId + items.length⟩) ∧
      evs.length = items.length ∧
      (∀ e ∈ evs, e.location_mismatch = false) ∧
      (∀ i (hi : i < items.length), ∃ e ∈ evs,
        e.id = db.nextEventId + i ∧
        e.device_id = device.device_id ∧
        e.detected_at = (items.get ⟨i, hi⟩).timestamp ∧
        e.detection_type = (items.get ⟨i, hi⟩).detection_type ∧
        e.confidence = (items.get ⟨i, hi⟩).confidence ∧
        e.ip_address = none ∧
        e.location_mismatch = false) := by
  refine ⟨items.enum.map (fun p : Nat × OfflineEventItem =>
    { id := db.nextEventId + p.1, device_id := device.device_id
      detected_at := p.2.timestamp, detection_type := p.2.detection_type
      confidence := p.2.confidence, ip_address := none
      ip_geolocation_region := none, distance_from_registered_km := none
      location_mismatch := false : DetectionEvent }), ?_, ?_, ?_, ?_⟩
  · rw [upload_logs, if_neg (by simp), if_neg (by simp [hsusp])]
    simp
  · simp
  · intro e he
    simp only [List.mem_map] at he
    obtain ⟨p, _, rfl⟩ := he
    rfl
  · intro i hi
    have hmem : (i, items.get ⟨i, hi⟩) ∈ items.enum := by
      have h : items.enum.get ⟨i, by simpa using hi⟩ = (i, items.get ⟨i, hi⟩) := by
        simp [List.getElem_enum]
      rw [← h]
      exact List.get_mem _ _ _
    exact ⟨_, List.mem_map_of_mem _ hmem, rfl, rfl, rfl, rfl, rfl, rfl, rfl⟩

/-- Witness for C6: two concrete offline items are inserted as exactly two
rows with `location_mismatch = false` and the response reports 2. -/
theorem upload_logs_batch_insert_witness :
    (Device.mk "LJ-A3F8B2C1-7294" "0123456789abcdef" (some "u1") (some "tok1")
        "active" "consumer" none none).status ≠ "suspended" ∧
    ([(⟨"bear", 9/10, 10, none⟩ : OfflineEventItem), ⟨"human", 1/2, 11, none⟩] ≠
      ([] : List OfflineEventItem)) ∧
    ∃ evs : List DetectionEvent,
      upload_logs ⟨⟨[], 0⟩, [], 0⟩
          (Device.mk "LJ-A3F8B2C1-7294" "0123456789abcdef" (some "u1") (some "tok1")
            "active" "consumer" none none)
          "LJ-A3F8B2C1-7294"
          [⟨"bear", 9/10, 10, none⟩, ⟨"human", 1/2, 11, none⟩] =
        (.ok ⟨2, "ログアップロード完了"⟩, ⟨⟨[], 0⟩, [] ++ evs, 0 + 2⟩) ∧
      evs.length = 2 ∧
      (∀ e ∈ evs, e.location_mismatch = false) := by
  refine ⟨by decide, by simp, ?_⟩
  obtain ⟨evs, h1, h2, h3, _⟩ :=
    upload_logs_batch_insert ⟨⟨[], 0⟩, [], 0⟩
      (Device.mk "LJ-A3F8B2C1-7294" "0123456789abcdef" (some "u1") (some "tok1")
        "active" "consumer" none none)
      [⟨"bear", 9/10, 10, none⟩, ⟨"human", 1/2, 11, none⟩]
      (by decide) (by simp)
  exact ⟨evs, h1, h2, h3⟩

/-- C7: in the live pipeline `receive_event` the registered region passed to
the mismatch check is always the empty string, so region disagreement can
never raise the flag: under the default settings the stored
`location_mismatch` is true exactly when an active location exists, a client
IP was observed, its geolocation is available, and the haversine distance
from the registered coordinate reaches 150 km. -/
theorem receive_event_mismatch_policy (geo : String → GeolocationResult)
    (now : ℚ) (client_ip : Option String) (db : EventDB) (device : Device)
    (body : DetectionEventRequest)
    (hsusp : device.status ≠ "suspended") :
    ∃ ev : DetectionEvent,
      receive_event defaultSettings geo now client_ip db device device.device_id
          body =
        (.ok ⟨ev.id, ev.location_mismatch⟩,
          ⟨db.locations, db.events ++ [ev], db.nextEventId + 1⟩) ∧
      (ev.location_mismatch = true ↔
        ∃ loc ipv,
          get_active_location db.locations device.device_id = some loc ∧
          client_ip = some ipv ∧ (geo ipv).available = true ∧
          150 ≤ haversine_km (loc.lat : ℝ) (loc.lon : ℝ) (geo ipv).lat
            (geo ipv).lon) := by
  have hthr : defaultSettings.LOCATION_MISMATCH_THRESHOLD_KM = 150 := by
    norm_num [defaultSettings]
  rcases hal : get_active_location db.locations device.device_id with _ | loc
  · refine ⟨⟨db.nextEventId, device.device_id, body.timestamp.getD now,
        body.detection_type, body.confidence, client_ip, none, none, false⟩,
        ?_, ?_⟩
    · rw [receive_event, if_neg (by simp), if_neg (by simp [hsusp])]
      simp [hal]
    · simp [hal]
  · rcases client_ip with _ | ipv
    · refine ⟨⟨db.nextEventId, device.device_id, body.timestamp.getD now,
          body.detection_type, body.confidence, none, none, none, false⟩,
          ?_, ?_⟩
      · rw [receive_event, if_neg (by simp), if_neg (by simp [hsusp])]
        simp [hal]
      · simp
    · rcases hgeo : (geo ipv).available with _ | _
      · refine ⟨⟨db.nextEventId, device.device_id, body.timestamp.getD now,
            body.detection_type, body.confidence, some ipv, none, none, false⟩,
            ?_, ?_⟩
        · rw [receive_event, if_neg (by simp), if_neg (by simp [hsusp])]
          simp [hal, check_location_mismatch, hgeo]
        · simp only [Bool.false_eq_true, false_iff, not_exists]
          rintro loc' ipv' ⟨h1, h2, h3, _⟩
          cases h2
          rw [hgeo] at h3
          cases h3
      · classical
        refine ⟨⟨db.nextEventId, device.device_id, body.timestamp.getD now,
            body.detection_type, body.confidence, some ipv,
            (if (geo ipv).region = "" then none else some (geo ipv).region),
            some (round3 (haversine_km (loc.lat : ℝ) (loc.lon : ℝ)
              (geo ipv).lat (geo ipv).lon)),
            decide (haversine_km (loc.lat : ℝ) (loc.lon : ℝ) (geo ipv).lat
              (geo ipv).lon ≥ defaultSettings.LOCATION_MISMATCH_THRESHOLD_KM)⟩,
            ?_, ?_⟩
        · rw [receive_event, if_neg (by simp), if_neg (by simp [hsusp])]
          simp [hal, check_location_mismatch, hgeo]
          intro h
          exact absurd h (by decide)
        · simp only [decide_eq_true_iff, ge_iff_le, hthr]
          constructor
          · intro hd
            exact ⟨loc, ipv, rfl, rfl, hgeo, hd⟩
          · rintro ⟨loc', ipv', h1, h2, _, h4⟩
            cases h1
            cases h2
            exact h4

/-- Witness for C7: a concrete live event with no observed client IP stores
`location_mismatch = false`. -/
theorem receive_event_mismatch_policy_witness :
    (Device.mk "LJ-A3F8B2C1-7294" "0123456789abcdef" (some "u1") (some "tok1")
        "active" "consumer" none none).status ≠ "suspended" ∧
    ∃ ev : DetectionEvent,
      receive_event defaultSettings (fun _ => ⟨"", 0, 0, false⟩) 0 none
          ⟨⟨[], 0⟩, [], 0⟩
          (Device.mk "LJ-A3F8B2C1-7294" "0123456789abcdef" (some "u1")
            (some "tok1") "active" "consumer" none none)
          "LJ-A3F8B2C1-7294" ⟨"bear", 9/10, none, none⟩ =
        (.ok ⟨ev.id, ev.location_mismatch⟩, ⟨⟨[], 0⟩, [] ++ [ev], 0 + 1⟩) ∧
      (ev.location_mismatch = true ↔
        ∃ loc ipv,
          get_active_location ⟨[], 0⟩ "LJ-A3F8B2C1-7294" = some loc ∧
          (none : Option String) = some ipv ∧
          ((fun _ : String => (⟨"", 0, 0, false⟩ : GeolocationResult)) ipv).available
              = true ∧
          150 ≤ haversine_km (loc.lat : ℝ) (loc.lon : ℝ)
            ((fun _ : String => (⟨"", 0, 0, false⟩ : GeolocationResult)) ipv).lat
            ((fun _ : String => (⟨"", 0, 0, false⟩ : GeolocationResult)) ipv).lon) :=
  ⟨by decide,
    receive_event_mismatch_policy (fun _ => ⟨"", 0, 0, false⟩) 0 none
      ⟨⟨[], 0⟩, [], 0⟩
      (Device.mk "LJ-A3F8B2C1-7294" "0123456789abcdef" (some "u1") (some "tok1")
        "active" "consumer" none none)
      ⟨"bear", 9/10, none, none⟩ (by decide)⟩

/-- C3: rejected registration attempts never touch the devices table: a call
whose `fth` fails verification answers 400 with the table unchanged; once a
device row is bound (as the first successful bind leaves it, with the calling
user as owner and the issued api token), any further attempt — by the same or
a different user — leaves the table unchanged and, when carrying the genuine
`fth`, answers 409 Conflict. -/
theorem registration_rejection (settings : Settings) (db : List Device)
    (fresh : String) (device_id fth user_id : String) :
    (verify_factory_token_hash settings device_id fth = false →
      register_device_endpoint settings db fresh device_id fth user_id =
        (.error fthVerificationError, db)) ∧
    (∀ dev, db.find? (fun d => d.device_id == device_id) = some dev →
      ∀ u0, dev.owner_user_id = some u0 →
        (register_device_endpoint settings db fresh device_id fth user_id).2 = db ∧
        (verify_factory_token_hash settings device_id fth = true →
          register_device_endpoint settings db fresh device_id fth user_id =
            (.error alreadyRegisteredError, db))) ∧
    (∀ resp db',
      register_device_endpoint settings db fresh device_id fth user_id =
        (.ok resp, db') →
      ∃ dev, db'.find? (fun d => d.device_id == device_id) = some dev ∧
        dev.owner_user_id = some user_id ∧ dev.api_token = some fresh) := by
  refine ⟨?_, ?_, ?_⟩
  · intro h
    rw [register_device_endpoint, if_pos h]
  · intro dev hfind u0 howner
    have hown : dev.owner_user_id.isSome = true := by rw [howner]; rfl
    constructor
    · rw [register_device_endpoint]
      by_cases hv : verify_factory_token_hash settings device_id fth = false
      · rw [if_pos hv]
      · rw [if_neg hv, hfind]
        dsimp only
        rw [if_pos hown]
    · intro hv
      rw [register_device_endpoint, if_neg (by rw [hv]; simp), hfind]
      dsimp only
      rw [if_pos hown]
  · intro resp db' hok
    rw [register_device_endpoint] at hok
    by_cases hv : verify_factory_token_hash settings device_id fth = false
    · rw [if_pos hv] at hok
      cases hok
    · rw [if_neg hv] at hok
      rcases hfind : db.find? (fun d => d.device_id == device_id) with _ | dev
      · rw [hfind, register_device, hfind] at hok
        dsimp only at hok
        injection hok with h1 h2
        subst h2
        refine ⟨⟨device_id, _compute_factory_token_hash settings device_id,
          some user_id, some fresh, "active", "consumer", none, none⟩,
          ?_, rfl, rfl⟩
        rw [List.find?_append, List.find?_eq_none.mpr, Option.none_or]
        · simp [List.find?]
        · intro d hd
          have := List.find?_eq_none.mp hfind d hd
          simpa using this
      · rw [hfind] at hok
        dsimp only at hok
        by_cases hown : dev.owner_user_id.isSome = true
        · rw [if_pos hown] at hok
          cases hok
        · rw [if_neg hown, register_device, hfind] at hok
          dsimp only at hok
          rw [if_neg hown] at hok
          dsimp only at hok
          injection hok with h1 h2
          subst h2
          have hp : (dev.device_id == device_id) = true := by
            simpa using List.find?_some hfind
          refine ⟨{ dev with owner_user_id := some user_id, api_token := some fresh },
            ?_, rfl, rfl⟩
          rw [List.find?_map]
          have hcomp :
              ((fun d : Device => d.device_id == device_id) ∘
                (fun d : Device => if d.device_id == device_id then
                  { dev with owner_user_id := some user_id, api_token := some fresh }
                  else d)) =
              (fun d : Device => d.device_id == device_id) := by
            funext d
            by_cases hd : (d.device_id == device_id) = true
            · simp only [Function.comp_apply, if_pos hd, hd]
              simpa using hp
            · simp only [Function.comp_apply, if_neg hd]
          rw [hcomp, hfind, Option.map_some', if_pos hp]

/-- Witness for C3: on a table holding one bound device, an attempt with the
genuine `fth` yields 409 and leaves the table unchanged. -/
theorem registration_rejection_witness :
    ([Device.mk "LJ-A3F8B2C1-7294" "0123456789abcdef" (some "owner-1")
        (some "tok1") "active" "consumer" none none].find?
          (fun d => d.device_id == "LJ-A3F8B2C1-7294") =
        some (Device.mk "LJ-A3F8B2C1-7294" "0123456789abcdef" (some "owner-1")
          (some "tok1") "active" "consumer" none none)) ∧
    ((Device.mk "LJ-A3F8B2C1-7294" "0123456789abcdef" (some "owner-1")
        (some "tok1") "active" "consumer" none none).owner_user_id =
      some "owner-1") ∧
    ((register_device_endpoint ⟨"LEONARDO_JR_2026_SECRET", 150⟩
        [Device.mk "LJ-A3F8B2C1-7294" "0123456789abcdef" (some "owner-1")
          (some "tok1") "active" "consumer" none none]
        "fresh-token" "LJ-A3F8B2C1-7294"
        (_compute_factory_token_hash ⟨"LEONARDO_JR_2026_SECRET", 150⟩
          "LJ-A3F8B2C1-7294")
        "owner-2").2 =
      [Device.mk "LJ-A3F8B2C1-7294" "0123456789abcdef" (some "owner-1")
        (some "tok1") "active" "consumer" none none]) ∧
    (verify_factory_token_hash ⟨"LEONARDO_JR_2026_SECRET", 150⟩
        "LJ-A3F8B2C1-7294"
        (_compute_factory_token_hash ⟨"LEONARDO_JR_2026_SECRET", 150⟩
          "LJ-A3F8B2C1-7294") = true →
      register_device_endpoint ⟨"LEONARDO_JR_2026_SECRET", 150⟩
        [Device.mk "LJ-A3F8B2C1-7294" "0123456789abcdef" (some "owner-1")
          (some "tok1") "active" "consumer" none none]
        "fresh-token" "LJ-A3F8B2C1-7294"
        (_compute_factory_token_hash ⟨"LEONARDO_JR_2026_SECRET", 150⟩
          "LJ-A3F8B2C1-7294")
        "owner-2" =
      (.error alreadyRegisteredError,
        [Device.mk "LJ-A3F8B2C1-7294" "0123456789abcdef" (some "owner-1")
          (some "tok1") "active" "consumer" none none])) :=
  ⟨rfl, rfl,
    ((registration_rejection ⟨"LEONARDO_JR_2026_SECRET", 150⟩
        [Device.mk "LJ-A3F8B2C1-7294" "0123456789abcdef" (some "owner-1")
          (some "tok1") "active" "consumer" none none]
        "fresh-token" "LJ-A3F8B2C1-7294"
        (_compute_factory_token_hash ⟨"LEONARDO_JR_2026_SECRET", 150⟩
          "LJ-A3F8B2C1-7294")
        "owner-2").2.1 _ rfl "owner-1" rfl).1,
    ((registration_rejection ⟨"LEONARDO_JR_2026_SECRET", 150⟩
        [Device.mk "LJ-A3F8B2C1-7294" "0123456789abcdef" (some "owner-1")
          (some "tok1") "active" "consumer" none none]
        "fresh-token" "LJ-A3F8B2C1-7294"
        (_compute_factory_token_hash ⟨"LEONARDO_JR_2026_SECRET", 150⟩
          "LJ-A3F8B2C1-7294")
        "owner-2").2.1 _ rfl "owner-1" rfl).2⟩

/-- One `register_location` call leaves the device with exactly its newly
inserted row active, whatever the initial state. -/
theorem activeRows_registerStep (s : LocationState) (d : String)
    (c : RegisterCall) :
    activeRows (registerStep d s c) d = [insertedRow s.nextId d c] := by
  unfold activeRows registerStep register_location insertedRow
  dsimp only
  rw [List.filter_append]
  have h1 : (s.rows.map (fun r =>
      if r.device_id == d && r.active_flag then { r with active_flag := false }
      else r)).filter (fun r => r.device_id == d && r.active_flag) = [] := by
    rw [List.filter_eq_nil_iff]
    intro a ha
    rw [List.mem_map] at ha
    obtain ⟨r, _, rfl⟩ := ha
    by_cases hc : (r.device_id == d && r.active_flag) = true
    · rw [if_pos hc]
      simp
    · rw [if_neg hc]
      simpa using hc
  rw [h1]
  simp

/-- Unfolding of `registerAll` on a cons cell. -/
theorem registerAll_cons (s : LocationState) (d : String) (c : RegisterCall)
    (cs : List RegisterCall) :
    registerAll s d (c :: cs) = registerAll (registerStep d s c) d cs := rfl

/-- Unfolding of `registerAll` on an append. -/
theorem registerAll_append (s : LocationState) (d : String)
    (l₁ l₂ : List RegisterCall) :
    registerAll s d (l₁ ++ l₂) = registerAll (registerAll s d l₁) d l₂ := by
  simp [registerAll, List.foldl_append]

/-- `registerAll` advances the autoincrement counter by the number of calls. -/
theorem registerAll_nextId (calls : List RegisterCall) (s : LocationState)
    (d : String) :
    (registerAll s d calls).nextId = s.nextId + calls.length := by
  induction calls generalizing s with
  | nil => simp [registerAll]
  | cons c cs ih =>
    rw [registerAll_cons, ih]
    show s.nextId + 1 + cs.length = s.nextId + (cs.length + 1)
    omega

/-- Rows survive later `register_location` calls with their data intact; the
active flag is only ever turned off, and it is off for every pre-existing row
of the device once at least one further call was made. -/
theorem registerAll_persist (calls : List RegisterCall) (s : LocationState)
    (d : String) (r : LocationRow) (hr : r ∈ s.rows) :
    ∃ r' ∈ (registerAll s d calls).rows,
      r'.id = r.id ∧ r'.device_id = r.device_id ∧ r'.lat = r.lat ∧
      r'.lon = r.lon ∧ r'.accuracy = r.accuracy ∧
      r'.registered_by = r.registered_by ∧ r'.ip_address = r.ip_address ∧
      (r'.active_flag = true → r.active_flag = true) ∧
      (calls ≠ [] → r.device_id = d → r'.active_flag = false) := by
  induction calls generalizing s r with
  | nil =>
    exact ⟨r, hr, rfl, rfl, rfl, rfl, rfl, rfl, rfl, fun h => h,
      fun h => absurd rfl h⟩
  | cons c cs ih =>
    have hdr : (if r.device_id == d && r.active_flag then
        { r with active_flag := false } else r) ∈ (registerStep d s c).rows := by
      unfold registerStep register_location
      dsimp only
      exact List.mem_append_left _ (List.mem_map_of_mem _ hr)
    obtain ⟨r', hmem, hid, hdev, hlat, hlon, hacc, hreg, hip, hact, _⟩ :=
      ih (registerStep d s c) _ hdr
    rw [registerAll_cons]
    by_cases hc : (r.device_id == d && r.active_flag) = true
    · rw [if_pos hc] at hid hdev hlat hlon hacc hreg hip hact
      refine ⟨r', hmem, hid, hdev, hlat, hlon, hacc, hreg, hip, ?_, ?_⟩
      · intro ha
        exact absurd (hact ha) (by simp)
      · intro _ _
        cases hflag : r'.active_flag
        · rfl
        · exact absurd (hact hflag) (by simp)
    · rw [if_neg hc] at hid hdev hlat hlon hacc hreg hip hact
      refine ⟨r', hmem, hid, hdev, hlat, hlon, hacc, hreg, hip, hact, ?_⟩
      intro _ hdd
      have hra : r.active_flag = false := by
        rcases hflag : r.active_flag
        · rfl
        · exact absurd (by simp [hdd, hflag]) hc
      cases hflag : r'.active_flag
      · rfl
      · rw [hact hflag] at hra
        cases hra

/-- After a non-empty sequence of calls, the device's active rows are exactly
the row inserted by the last call. -/
theorem activeRows_registerAll (calls : List RegisterCall) (s : LocationState)
    (d : String) (c' : RegisterCall) (hlast : calls.getLast? = some c') :
    activeRows (registerAll s d calls) d =
      [insertedRow (s.nextId + calls.length - 1) d c'] := by
  induction calls generalizing s with
  | nil => cases hlast
  | cons c cs ih =>
    cases cs with
    | nil =>
      have hc : c = c' := by simpa using hlast
      subst hc
      rw [registerAll_cons]
      show activeRows (registerAll (registerStep d s c) d []) d = _
      rw [registerAll]
      simpa using activeRows_registerStep s d c
    | cons c₂ cs₂ =>
      rw [List.getLast?_cons_cons] at hlast
      have hth := ih (registerStep d s c) hlast
      have hnid : (registerStep d s c).nextId = s.nextId + 1 := rfl
      rw [hnid] at hth
      have harith : s.nextId + 1 + (c₂ :: cs₂).length - 1 =
          s.nextId + (c :: c₂ :: cs₂).length - 1 := by
        simp only [List.length_cons]
        omega
      rw [harith] at hth
      rw [registerAll_cons]
      exact hth

/-- The last element of `l.take (i+1)` is `l.get i`. -/
theorem getLast?_take_succ (l : List RegisterCall) (i : Nat)
    (hi : i < l.length) :
    (l.take (i + 1)).getLast? = some (l.get ⟨i, hi⟩) := by
  rw [List.take_succ, List.getElem?_eq_getElem hi]
  show (l.take i ++ [l.get ⟨i, hi⟩]).getLast? = _
  rw [List.getLast?_concat]

/-- C2: after N ≥ 1 sequential `register_location` calls for one device,
exactly one `location_history` row of that device is active and it is the row
inserted by the last call (what `get_active_location` returns); every one of
the N inserted rows is still retrievable with its data intact, active
precisely for the last call; and after every intermediate call the device has
exactly one active row, so at most one active row per device exists at any
time. Each call performs the deactivate-then-insert pair as one state
transition, the embedding of the source's single transaction. -/
theorem register_location_history_invariant (s : LocationState) (d : String)
    (calls : List RegisterCall) (hne : calls ≠ []) :
    (activeRows (registerAll s d calls) d).length = 1 ∧
    (∀ c', calls.getLast? = some c' →
      get_active_location (registerAll s d calls) d =
        some (insertedRow (s.nextId + calls.length - 1) d c')) ∧
    (∀ i (hi : i < calls.length), ∃ r ∈ (registerAll s d calls).rows,
      r.id = s.nextId + i ∧ r.device_id = d ∧
      r.lat = (calls.get ⟨i, hi⟩).lat ∧ r.lon = (calls.get ⟨i, hi⟩).lon ∧
      r.accuracy = (calls.get ⟨i, hi⟩).accuracy ∧
      r.registered_by = (calls.get ⟨i, hi⟩).user_id ∧
      r.ip_address = (calls.get ⟨i, hi⟩).ip_address ∧
      (r.active_flag = true ↔ i = calls.length - 1)) ∧
    (∀ k, 1 ≤ k → k ≤ calls.length →
      (activeRows (registerAll s d (calls.take k)) d).length = 1) := by
  refine ⟨?_, ?_, ?_, ?_⟩
  · rw [activeRows_registerAll calls s d _ (List.getLast?_eq_getLast calls hne)]
    rfl
  · intro c' hl
    show (activeRows (registerAll s d calls) d).getLast? = _
    rw [activeRows_registerAll calls s d c' hl]
    rfl
  · intro i hi
    have hreg : registerAll s d calls =
        registerAll (registerAll s d (calls.take (i + 1))) d
          (calls.drop (i + 1)) := by
      conv_lhs => rw [← List.take_append_drop (i + 1) calls]
      exact registerAll_append s d _ _
    have hlen : (calls.take (i + 1)).length = i + 1 := by
      rw [List.length_take]
      omega
    have hact := activeRows_registerAll (calls.take (i + 1)) s d _
      (getLast?_take_succ calls i hi)
    rw [hlen] at hact
    have hid1 : s.nextId + (i + 1) - 1 = s.nextId + i := by omega
    rw [hid1] at hact
    have hmem : insertedRow (s.nextId + i) d (calls.get ⟨i, hi⟩) ∈
        (registerAll s d (calls.take (i + 1))).rows := by
      refine List.mem_of_mem_filter (p := fun r => r.device_id == d && r.active_flag) ?_
      show _ ∈ activeRows (registerAll s d (calls.take (i + 1))) d
      rw [hact]
      exact List.mem_singleton_self _
    by_cases hlastidx : i = calls.length - 1
    · have hdrop : calls.drop (i + 1) = [] := by
        apply List.drop_eq_nil_of_le
        omega
      refine ⟨insertedRow (s.nextId + i) d (calls.get ⟨i, hi⟩), ?_, rfl, rfl,
        rfl, rfl, rfl, rfl, rfl, ?_⟩
      · rw [hreg, hdrop]
        exact hmem
      · simpa [insertedRow] using hlastidx
    · have hdropne : calls.drop (i + 1) ≠ [] := by
        intro h
        have hlen2 := congrArg List.length h
        rw [List.length_drop] at hlen2
        simp only [List.length_nil] at hlen2
        omega
      obtain ⟨r', hmem', hid', hdev', hlat', hlon', hacc', hreg', hip', _,
        hforce'⟩ := registerAll_persist (calls.drop (i + 1)) _ d _ hmem
      have hflag : r'.active_flag = false := hforce' hdropne rfl
      refine ⟨r', by rw [hreg]; exact hmem', hid', hdev', hlat', hlon', hacc',
        hreg', hip', ?_⟩
      rw [hflag]
      simp [hlastidx]
  · intro k hk1 hk2
    have hne' : calls.take k ≠ [] := by
      intro h
      have hlen2 := congrArg List.length h
      rw [List.length_take] at hlen2
      simp only [List.length_nil] at hlen2
      omega
    rw [activeRows_registerAll _ s d _ (List.getLast?_eq_getLast _ hne')]
    rfl

/-- Witness for C2: two concrete sequential registrations leave exactly the
second row active and both rows retrievable. -/
theorem register_location_history_invariant_witness :
    ([(⟨36, 138, some 15, "u1", none⟩ : RegisterCall),
        ⟨35, 139, some 20, "u1", some "203.0.113.9"⟩] ≠ []) ∧
    (activeRows (registerAll ⟨[], 0⟩ "LJ-A3F8B2C1-7294"
        [⟨36, 138, some 15, "u1", none⟩,
          ⟨35, 139, some 20, "u1", some "203.0.113.9"⟩]) "LJ-A3F8B2C1-7294").length
      = 1 ∧
    get_active_location (registerAll ⟨[], 0⟩ "LJ-A3F8B2C1-7294"
        [⟨36, 138, some 15, "u1", none⟩,
          ⟨35, 139, some 20, "u1", some "203.0.113.9"⟩]) "LJ-A3F8B2C1-7294" =
      some (insertedRow (0 + 2 - 1) "LJ-A3F8B2C1-7294"
        ⟨35, 139, some 20, "u1", some "203.0.113.9"⟩) :=
  ⟨by simp,
    (register_location_history_invariant ⟨[], 0⟩ "LJ-A3F8B2C1-7294"
      [⟨36, 138, some 15, "u1", none⟩,
        ⟨35, 139, some 20, "u1", some "203.0.113.9"⟩] (by simp)).1,
    (register_location_history_invariant ⟨[], 0⟩ "LJ-A3F8B2C1-7294"
      [⟨36, 138, some 15, "u1", none⟩,
        ⟨35, 139, some 20, "u1", some "203.0.113.9"⟩] (by simp)).2.1
      ⟨35, 139, some 20, "u1", some "203.0.113.9"⟩ rfl⟩

/-- The haversine intermediate `a` is symmetric in the two points. -/
theorem haversineA_symm (a b c d : ℝ) : haversineA a b c d = haversineA c d a b := by
  unfold haversineA radians
  have h1 : (a - c) * Real.pi / 180 / 2 = -((c - a) * Real.pi / 180 / 2) := by
    ring
  have h2 : (b - d) * Real.pi / 180 / 2 = -((d - b) * Real.pi / 180 / 2) := by
    ring
  rw [h1, h2, Real.sin_neg, Real.sin_neg]
  ring

/-- `arctan` is nonnegative on nonnegative arguments. -/
theorem arctan_nonneg_of_nonneg {x : ℝ} (hx : 0 ≤ x) : 0 ≤ Real.arctan x := by
  have h := Real.arctan_strictMono.monotone hx
  rwa [Real.arctan_zero] at h

/-- `arctan x ≤ x` for nonnegative `x`. -/
theorem arctan_le_self_of_nonneg {x : ℝ} (hx : 0 ≤ x) : Real.arctan x ≤ x := by
  by_contra h
  push_neg at h
  rcases eq_or_lt_of_le hx with heq | hpos
  · rw [← heq, Real.arctan_zero] at h
    exact lt_irrefl 0 h
  · have h2 : Real.arctan x < Real.pi / 2 := Real.arctan_lt_pi_div_two x
    have h3 : Real.tan x < Real.tan (Real.arctan x) :=
      Real.tan_lt_tan_of_nonneg_of_lt_pi_div_two hx h2 h
    rw [Real.tan_arctan] at h3
    have h4 : x < Real.tan x := Real.lt_tan hpos (lt_trans h h2)
    linarith

/-- `arctan x` is at least `x / √(1 + x²)` for nonnegative `x`. -/
theorem arctan_ge_div_sqrt {x : ℝ} (hx : 0 ≤ x) :
    x / Real.sqrt (1 + x ^ 2) ≤ Real.arctan x := by
  have h1 : Real.sin (Real.arctan x) ≤ Real.arctan x :=
    Real.sin_le (arctan_nonneg_of_nonneg hx)
  rwa [Real.sin_arctan] at h1

/-- Interval bounds for `sin z ^ 2` from the Taylor bounds
`z - z³/4 < sin z < z` on `(0, 1]`. -/
theorem sin_sq_bounds {z lo hi : ℝ} (hlo : lo ≤ z) (hhi : z ≤ hi)
    (h0 : 0 < lo) (h1 : hi ≤ 1) (h2 : 0 ≤ lo - hi ^ 3 / 4) :
    (lo - hi ^ 3 / 4) ^ 2 ≤ Real.sin z ^ 2 ∧ Real.sin z ^ 2 ≤ hi ^ 2 := by
  have hz0 : 0 < z := lt_of_lt_of_le h0 hlo
  have hs_up : Real.sin z ≤ hi := le_trans (Real.sin_le (le_of_lt hz0)) hhi
  have hcube : z - z ^ 3 / 4 < Real.sin z :=
    Real.sin_gt_sub_cube hz0 (le_trans hhi h1)
  have hz3 : z ^ 3 ≤ hi ^ 3 := pow_le_pow_left₀ (le_of_lt hz0) hhi 3
  have hs_lo : lo - hi ^ 3 / 4 ≤ Real.sin z := by nlinarith
  have hs0 : 0 ≤ Real.sin z := le_trans h2 hs_lo
  constructor
  · nlinarith [mul_nonneg (sub_nonneg.mpr hs_lo)
      (by linarith : (0:ℝ) ≤ Real.sin z + (lo - hi ^ 3 / 4))]
  · nlinarith [mul_nonneg (sub_nonneg.mpr hs_up)
      (by linarith : (0:ℝ) ≤ hi + Real.sin z)]

/-- Interval bounds for `cos c` via `cos c = 1 - 2 sin²(c/2)`. -/
theorem cos_bounds {c lo hi : ℝ} (hlo : lo ≤ c / 2) (hhi : c / 2 ≤ hi)
    (h0 : 0 < lo) (h1 : hi ≤ 1) (h2 : 0 ≤ lo - hi ^ 3 / 4) :
    1 - 2 * hi ^ 2 ≤ Real.cos c ∧
      Real.cos c ≤ 1 - 2 * (lo - hi ^ 3 / 4) ^ 2 := by
  obtain ⟨hl, hu⟩ := sin_sq_bounds hlo hhi h0 h1 h2
  have hident := Real.sin_sq_eq_half_sub (c / 2)
  rw [show 2 * (c / 2) = c from by ring] at hident
  constructor <;> nlinarith [hl, hu, hident]

set_option maxHeartbeats 1000000 in
/-- Interval bounds for the haversine intermediate `a` between the Tokyo and
Osaka reference coordinates. -/
theorem haversineA_tokyo_osaka_bounds :
    0.0009545 ≤ haversineA 35.6895 139.6917 34.6937 135.5023 ∧
    haversineA 35.6895 139.6917 34.6937 135.5023 ≤ 0.0009747 := by
  have hπl : (3.141592:ℝ) < Real.pi := Real.pi_gt_d6
  have hπu : Real.pi < 3.141593 := Real.pi_lt_d6
  -- latitude-difference term
  have e1 : radians (34.6937 - 35.6895) / 2 = -(0.9958 * Real.pi / 360) := by
    unfold radians
    ring
  have hz1lo : (0.0086899:ℝ) ≤ 0.9958 * Real.pi / 360 := by nlinarith
  have hz1hi : 0.9958 * Real.pi / 360 ≤ 0.0086900 := by nlinarith
  obtain ⟨hs1lo, hs1hi⟩ := sin_sq_bounds hz1lo hz1hi (by norm_num)
    (by norm_num) (by norm_num)
  have hrw1 : Real.sin (radians (34.6937 - 35.6895) / 2) ^ 2 =
      Real.sin (0.9958 * Real.pi / 360) ^ 2 := by
    rw [e1, Real.sin_neg]
    ring
  have hs1lo' : (0.0000755:ℝ) ≤ Real.sin (0.9958 * Real.pi / 360) ^ 2 :=
    le_trans (by norm_num) hs1lo
  have hs1hi' : Real.sin (0.9958 * Real.pi / 360) ^ 2 ≤ 0.00007552 :=
    le_trans hs1hi (by norm_num)
  -- longitude-difference term
  have e2 : radians (135.5023 - 139.6917) / 2 = -(4.1894 * Real.pi / 360) := by
    unfold radians
    ring
  have hz2lo : (0.0365594:ℝ) ≤ 4.1894 * Real.pi / 360 := by nlinarith
  have hz2hi : 4.1894 * Real.pi / 360 ≤ 0.0365595 := by nlinarith
  obtain ⟨hs2lo, hs2hi⟩ := sin_sq_bounds hz2lo hz2hi (by norm_num)
    (by norm_num) (by norm_num)
  have hrw2 : Real.sin (radians (135.5023 - 139.6917) / 2) ^ 2 =
      Real.sin (4.1894 * Real.pi / 360) ^ 2 := by
    rw [e2, Real.sin_neg]
    ring
  have hs2lo' : (0.0013356:ℝ) ≤ Real.sin (4.1894 * Real.pi / 360) ^ 2 :=
    le_trans (by norm_num) hs2lo
  have hs2hi' : Real.sin (4.1894 * Real.pi / 360) ^ 2 ≤ 0.0013366 :=
    le_trans hs2hi (by norm_num)
  -- the two latitude cosines
  have hc1lo : (0.3114495:ℝ) ≤ radians 35.6895 / 2 := by
    unfold radians
    nlinarith
  have hc1hi : radians 35.6895 / 2 ≤ 0.3114497 := by
    unfold radians
    nlinarith
  obtain ⟨hcos1lo, hcos1hi⟩ := cos_bounds hc1lo hc1hi (by norm_num)
    (by norm_num) (by norm_num)
  have hcos1lo' : (0.805998:ℝ) ≤ Real.cos (radians 35.6895) :=
    le_trans (by norm_num) hcos1lo
  have hcos1hi' : Real.cos (radians 35.6895) ≤ 0.815294 :=
    le_trans hcos1hi (by norm_num)
  have hc2lo : (0.3027595:ℝ) ≤ radians 34.6937 / 2 := by
    unfold radians
    nlinarith
  have hc2hi : radians 34.6937 / 2 ≤ 0.3027597 := by
    unfold radians
    nlinarith
  obtain ⟨hcos2lo, hcos2hi⟩ := cos_bounds hc2lo hc2hi (by norm_num)
    (by norm_num) (by norm_num)
  have hcos2lo' : (0.816673:ℝ) ≤ Real.cos (radians 34.6937) :=
    le_trans (by norm_num) hcos2lo
  have hcos2hi' : Real.cos (radians 34.6937) ≤ 0.824980 :=
    le_trans hcos2hi (by norm_num)
  -- assemble
  have hc12lo : (0.658236:ℝ) ≤
      Real.cos (radians 35.6895) * Real.cos (radians 34.6937) := by
    nlinarith [hcos1lo', hcos1hi', hcos2lo', hcos2hi']
  have hc12hi : Real.cos (radians 35.6895) * Real.cos (radians 34.6937) ≤
      0.672602 := by
    nlinarith [hcos1lo', hcos1hi', hcos2lo', hcos2hi']
  unfold haversineA
  rw [hrw1, hrw2]
  constructor
  · nlinarith [hs1lo', hs2lo', hc12lo, hc12hi, hs2hi']
  · nlinarith [hs1hi', hs2hi', hc12lo, hc12hi, hs2lo']

set_option maxHeartbeats 1000000 in
/-- The haversine distance between the Tokyo and Osaka reference coordinates
lies in [390, 420] km. -/
theorem haversine_km_tokyo_osaka :
    390 ≤ haversine_km 35.6895 139.6917 34.6937 135.5023 ∧
    haversine_km 35.6895 139.6917 34.6937 135.5023 ≤ 420 := by
  obtain ⟨haLo, haHi⟩ := haversineA_tokyo_osaka_bounds
  rw [show haversine_km 35.6895 139.6917 34.6937 135.5023 =
      6371.0 * 2 * atan2 (Real.sqrt (haversineA 35.6895 139.6917 34.6937 135.5023))
        (Real.sqrt (1 - haversineA 35.6895 139.6917 34.6937 135.5023)) from rfl]
  set A := haversineA 35.6895 139.6917 34.6937 135.5023 with hAdef
  have ha0 : (0:ℝ) < A := lt_of_lt_of_le (by norm_num) haLo
  have ha1 : A < 1 := lt_of_le_of_lt haHi (by norm_num)
  have hsb : 0 < Real.sqrt (1 - A) := Real.sqrt_pos.mpr (by linarith)
  unfold atan2
  rw [if_pos hsb]
  have hquot : Real.sqrt A / Real.sqrt (1 - A) = Real.sqrt (A / (1 - A)) :=
    (Real.sqrt_div (le_of_lt ha0) _).symm
  rw [hquot]
  set u := Real.sqrt (A / (1 - A)) with hudef
  have hu0 : 0 ≤ u := Real.sqrt_nonneg _
  have hu_hi : u ≤ 0.0313 := by
    have h1 : A / (1 - A) ≤ 0.0313 ^ 2 := by
      rw [div_le_iff₀ (by linarith)]
      nlinarith
    calc u ≤ Real.sqrt (0.0313 ^ 2) := Real.sqrt_le_sqrt h1
      _ = 0.0313 := Real.sqrt_sq (by norm_num)
  have hu_lo : (0.03089:ℝ) ≤ u := by
    have h1 : (0.03089:ℝ) ^ 2 ≤ A / (1 - A) := by
      rw [le_div_iff₀ (by linarith)]
      nlinarith
    calc (0.03089:ℝ) = Real.sqrt (0.03089 ^ 2) := (Real.sqrt_sq (by norm_num)).symm
      _ ≤ u := Real.sqrt_le_sqrt h1
  have harc_hi : Real.arctan u ≤ 0.0313 :=
    le_trans (arctan_le_self_of_nonneg hu0) hu_hi
  have harc_lo : (0.0308:ℝ) ≤ Real.arctan u := by
    have h1 := arctan_ge_div_sqrt hu0
    have h2 : Real.sqrt (1 + u ^ 2) ≤ 1.0005 := by
      calc Real.sqrt (1 + u ^ 2) ≤ Real.sqrt (1.0005 ^ 2) := by
            apply Real.sqrt_le_sqrt
            nlinarith
        _ = 1.0005 := Real.sqrt_sq (by norm_num)
    have h3 : 0 < Real.sqrt (1 + u ^ 2) := Real.sqrt_pos.mpr (by nlinarith)
    have h4 : (0.03089:ℝ) / 1.0005 ≤ u / Real.sqrt (1 + u ^ 2) := by
      gcongr
    have h5 : (0.0308:ℝ) ≤ 0.03089 / 1.0005 := by norm_num
    linarith
  constructor
  · nlinarith [harc_lo]
  · nlinarith [harc_hi]

/-- C10: the haversine distance is symmetric in its two coordinate pairs,
vanishes on identical points, uses Earth radius 6371 km (half a great circle
measures 6371·π km), and the Tokyo–Osaka distance lies in [390, 420] km. -/
theorem haversine_km_properties :
    (∀ lat1 lon1 lat2 lon2 : ℝ,
      haversine_km lat1 lon1 lat2 lon2 = haversine_km lat2 lon2 lat1 lon1) ∧
    (∀ lat lon : ℝ, haversine_km lat lon lat lon = 0) ∧
    haversine_km 0 0 0 180 = 6371 * Real.pi ∧
    (390 ≤ haversine_km 35.6895 139.6917 34.6937 135.5023 ∧
      haversine_km 35.6895 139.6917 34.6937 135.5023 ≤ 420) := by
  refine ⟨?_, ?_, ?_, ?_⟩
  · intro lat1 lon1 lat2 lon2
    unfold haversine_km
    rw [haversineA_symm]
  · intro lat lon
    have hA : haversineA lat lon lat lon = 0 := by
      unfold haversineA radians
      simp
    show 6371.0 * 2 * atan2 (Real.sqrt (haversineA lat lon lat lon))
        (Real.sqrt (1 - haversineA lat lon lat lon)) = 0
    rw [hA, Real.sqrt_zero, show (1:ℝ) - 0 = 1 by norm_num, Real.sqrt_one]
    unfold atan2
    rw [if_pos one_pos]
    simp
  · have hA : haversineA 0 0 0 180 = 1 := by
      unfold haversineA radians
      rw [show (180 - 0 : ℝ) * Real.pi / 180 / 2 = Real.pi / 2 by ring]
      simp
    show 6371.0 * 2 * atan2 (Real.sqrt (haversineA 0 0 0 180))
        (Real.sqrt (1 - haversineA 0 0 0 180)) = 6371 * Real.pi
    rw [hA, Real.sqrt_one, show (1:ℝ) - 1 = 0 by norm_num, Real.sqrt_zero]
    unfold atan2
    rw [if_neg (lt_irrefl 0), if_neg (lt_irrefl 0), if_pos one_pos]
    ring
  · exact haversine_km_tokyo_osaka

/-- Supporting C4: both derivations are deterministic functions following the
spec formula (first 16 hex characters of a SHA-256), and the device-side and
server-side implementations compute the same pair of functions whenever the
server's configured secret equals the device's environment secret. -/
theorem token_derivation_agreement (settings : Settings)
    (device_id tok : String) :
    derive_factory_token settings.FACTORY_SECRET device_id =
      (sha256hex (device_id ++ ":" ++ settings.FACTORY_SECRET)).take 16 ∧
    derive_factory_token_hash tok = (sha256hex tok).take 16 ∧
    _derive_factory_token settings device_id =
      derive_factory_token settings.FACTORY_SECRET device_id ∧
    _derive_factory_token_hash tok = derive_factory_token_hash tok ∧
    _compute_factory_token_hash settings device_id =
      derive_factory_token_hash
        (derive_factory_token settings.FACTORY_SECRET device_id) ∧
    verify_factory_token_hash settings device_id
      (derive_factory_token_hash
        (derive_factory_token settings.FACTORY_SECRET device_id)) = true := by
  refine ⟨rfl, rfl, rfl, rfl, rfl, ?_⟩
  unfold verify_factory_token_hash _derive_factory_token_hash
    _derive_factory_token derive_factory_token_hash derive_factory_token
  exact beq_self_eq_true _

set_option maxRecDepth 8000 in
/-- Supporting C4: on the repository's example device id and the default
factory secret, the raw factory token differs from its own hash (the
universal statement over all device ids is equivalent to fixed-point-freeness
of truncated double SHA-256 and is not decidable here). -/
theorem token_hash_distinct_instance :
    derive_factory_token "LEONARDO_JR_2026_SECRET" "LJ-A3F8B2C1-7294" ≠
      derive_factory_token_hash
        (derive_factory_token "LEONARDO_JR_2026_SECRET" "LJ-A3F8B2C1-7294") := by
  decide

/-- Supporting C9: the setup URL is exactly the base URL with the
`device_id` and `fth` query parameters, the `fth` component being the hash of
the token, not the token. -/
theorem build_setup_url_structure (factory_secret device_id : String) :
    build_setup_url factory_secret device_id =
      SETUP_BASE_URL ++ "?device_id=" ++ device_id ++ "&fth=" ++
        derive_factory_token_hash
          (derive_factory_token factory_secret device_id) := rfl

set_option maxRecDepth 8000 in
/-- Supporting C9: on the repository's example device id and the default
factory secret, the raw factory token does not occur in the generated setup
URL. -/
theorem build_setup_url_no_token_instance :
    ¬ (derive_factory_token "LEONARDO_JR_2026_SECRET" "LJ-A3F8B2C1-7294").data <:+:
      (build_setup_url "LEONARDO_JR_2026_SECRET" "LJ-A3F8B2C1-7294").data := by
  decide

end LeonardoJr
